import Mathlib

/-!
Verification of the `ria` model downloader and ONNX loading core.

The definitions below are a shallow embedding of the Rust sources:
  * `src/ai/models.rs`     — resumable, checksum-verified model download
    (`download_model_with_verify_and_progress`);
  * `src/ai/providers.rs`  — classified model loading (`load_model_classified`),
    error classification (`classify_error`), signature introspection
    (`ModelSignature::from_session`), adaptive forward probing
    (`adaptive_probe`), and `unload`;
  * `src/ui/app.rs`        — the per-backend retry loop
    (`try_load_onnx_model_safely`).

File-system and native-runtime effects are made explicit: the downloader acts
on a `DownloadState` (contents of the `.part` file and of the final path), the
loader takes the ambient file system as a `String → Bool` predicate and the
native ONNX runtime as a record of fallible steps (`OrtRuntime`).  The SHA-256
digest comes from an external crate (`sha2`), so the downloader is
parameterised by the digest function, exactly as the Rust code is generic in
whatever `Sha256` computes.
-/

namespace Ria

/-! ## Downloader (src/ai/models.rs, `download_model_with_verify_and_progress`) -/

/-- Bytes of a file are modelled as a list of naturals. -/
abbrev Bytes := List Nat

/-- HTTP response: status code plus full body delivered by the stream. -/
structure HttpResponse where
  status : Nat
  body : Bytes

/-- On-disk state at the two paths the download touches: the `<dest>.onnx.part`
sidecar and the final `<dest>.onnx` path.  `none` means "no file exists". -/
structure DownloadState where
  partFile : Option Bytes
  finalFile : Option Bytes
deriving DecidableEq

/-- Result of one download call (success carries the finalized bytes). -/
inductive DownloadResult where
  | ok (bytes : Bytes)
  | httpError (status : Nat)
  | checksumMismatch (digest : String)
deriving DecidableEq

/-- `reqwest::StatusCode::is_success`: the 2xx range. -/
def isSuccessStatus (s : Nat) : Bool := 200 ≤ s && s ≤ 299

/-- Rust's `str::to_lowercase`, embedded as a per-character map (ASCII case
folding, which is all the hex digests and input names here use). -/
def strToLower (s : String) : String := String.mk (s.data.map Char.toLower)

/-- Resume offset: the byte length of the `.part` file when it exists, else 0
(`std::fs::metadata(&part_path).len()` guarded by `part_path.exists()`). -/
def resumeOffset (st : DownloadState) : Nat := (st.partFile.getD []).length

/-- The `Range: bytes=<offset>-` header is attached iff `resume_from > 0`. -/
def rangeHeader (resumeFrom : Nat) : Option Nat :=
  if resumeFrom > 0 then some resumeFrom else none

/-- Shallow embedding of `download_model_with_verify_and_progress`.

`sha256hex` is the hex digest of a byte string (the `sha2` crate, external).
`server` maps the optional Range offset of the single outbound request to the
response.  Control flow mirrors the source: determine the resume offset from
the part file, send the request (with Range iff the offset is positive), fail
on a non-success non-206 status, append the whole body to the part file
(opened in append mode), then, if an expected digest was supplied, re-hash the
entire part file and fail on a case-insensitive mismatch; only then rename the
part file onto the final path. -/
def download_model_with_verify (sha256hex : Bytes → String)
    (expected : Option String) (server : Option Nat → HttpResponse)
    (st : DownloadState) : DownloadResult × DownloadState :=
  let resumeFrom := resumeOffset st
  let response := server (rangeHeader resumeFrom)
  if !(isSuccessStatus response.status || response.status == 206) then
    (.httpError response.status, st)
  else
    let partBytes := st.partFile.getD [] ++ response.body
    let st1 : DownloadState := { st with partFile := some partBytes }
    match expected with
    | some e =>
      let digestHex := sha256hex partBytes
      if strToLower digestHex ≠ strToLower e then
        (.checksumMismatch digestHex, st1)
      else
        (.ok partBytes, { partFile := none, finalFile := some partBytes })
    | none => (.ok partBytes, { partFile := none, finalFile := some partBytes })

/-! ## Provider data model (src/ai/providers.rs, src/ai/mod.rs) -/

/-- `ExecutionProvider` from src/ai/mod.rs. -/
inductive ExecutionProvider where
  | Cpu | Cuda | DirectML | CoreML | OpenVINO | QNN | NNAPI
deriving DecidableEq

/-- The fields of `InferenceConfig` that `load_model_classified` and the
retry loop consult (path, requested backend, NPU preference). -/
structure InferenceConfig where
  model_path : String
  execution_provider : ExecutionProvider
  prefer_npu : Bool
deriving DecidableEq

/-- `LoadError` from src/ai/providers.rs (same variants, same payloads). -/
inductive LoadError where
  | EmptyPath
  | FileMissing (p : String)
  | NotOnnxFile (p : String)
  | ExecutionProviderRegistration (e : String)
  | SessionBuild (e : String)
  | VersionIncompatibility (e : String)
  | Io (e : String)
  | ModelUnsupported (e : String)
  | InferenceProbeFailed (e : String)
  | Panic (e : String)
  | Unknown (e : String)
deriving DecidableEq

/-- `InputRole` from src/ai/providers.rs. -/
inductive InputRole where
  | Ids | AttentionMask | TokenTypeIds | PositionIds | Unknown
deriving DecidableEq

/-- `ModelInputDesc { name, role }`. -/
structure ModelInputDesc where
  name : String
  role : InputRole
deriving DecidableEq

/-- `ModelSignature { inputs }`. -/
structure ModelSignature where
  inputs : List ModelInputDesc
deriving DecidableEq

/-- A 2-D integer tensor (`ndarray::Array2<i64>`) as a list of rows. -/
abbrev Tensor := List (List Int)

/-- One `session.run(...)` feed: named tensors, in the order given to
`ort::inputs![...]`. -/
abbrev Feed := List (String × Tensor)

/-- The committed native session: the input names it declares
(`session.inputs`) and which feeds `session.run` accepts. -/
structure Session where
  inputs : List String
  accepts : Feed → Bool

/-- Does `pat` occur as a contiguous run inside the character list? -/
def containsSeq (pat : List Char) : List Char → Bool
  | [] => pat.isEmpty
  | c :: rest => pat.isPrefixOf (c :: rest) || containsSeq pat rest

/-- Rust's `str::contains(pattern)` on the underlying characters. -/
def strContains (s pat : String) : Bool := containsSeq pat.data s.data

/-- `Path::file_name`: the portion of the path after the last separator. -/
def fileNameOf (p : String) : String :=
  String.mk ((p.data.reverse.takeWhile (fun c => c ≠ '/')).reverse)

/-- `Path::extension`: the suffix of the file name after its last dot, where a
dot leading the file name does not begin an extension. -/
def extensionOf (p : String) : Option String :=
  match (fileNameOf p).data with
  | [] => none
  | _ :: rest =>
    if rest.contains '.' then
      some (String.mk ((rest.reverse.takeWhile (fun ch => ch ≠ '.')).reverse))
    else none

/-- `model_path.extension().map_or(false, |ext| ext == "onnx")`. -/
def isOnnxExt (p : String) : Bool :=
  match extensionOf p with
  | some ext => ext == "onnx"
  | none => false

/-- `classify_error` from src/ai/providers.rs: substring heuristics over the
lowercased message. -/
def classifyError (msg : String) : LoadError :=
  let lowered := strToLower msg
  if strContains lowered "1.16" || strContains lowered "1.17"
      || strContains lowered "version" then
    .VersionIncompatibility msg
  else if strContains lowered "no such file" || strContains lowered "not found" then
    .Io msg
  else if strContains lowered "unsupported" || strContains lowered "not implemented" then
    .ModelUnsupported msg
  else if strContains lowered "panic" then
    .Panic msg
  else
    .SessionBuild msg

/-- Role classification of one declared input name in
`ModelSignature::from_session`. -/
def inputRole (name : String) : InputRole :=
  let lower := strToLower name
  if strContains lower "input_ids" || lower == "input" || strContains lower "tokens" then
    .Ids
  else if strContains lower "attention_mask" || lower == "mask" then
    .AttentionMask
  else if strContains lower "token_type" then .TokenTypeIds
  else if strContains lower "position" then .PositionIds
  else .Unknown

/-- `ModelSignature::from_session`: one descriptor per declared input, in
declaration order. -/
def ModelSignature.from_session (s : Session) : ModelSignature :=
  ⟨s.inputs.map (fun n => ⟨n, inputRole n⟩)⟩

/-- The `OnnxProvider` fields touched by loading, probing and unloading. -/
structure OnnxProvider where
  config : InferenceConfig
  is_loaded : Bool
  model_loaded : Bool
  session : Option Session
  last_ep_error : Option String
  last_load_error : Option LoadError
  model_signature : Option ModelSignature

/-- `OnnxProvider::new`: everything unloaded, no recorded errors. -/
def OnnxProvider.new (config : InferenceConfig) : OnnxProvider :=
  ⟨config, false, false, none, none, none, none⟩

/-- `unload`: drops the session and clears the loaded flags (and, as the
source stands, nothing else). -/
def unload (p : OnnxProvider) : OnnxProvider :=
  { p with session := none, model_loaded := false, is_loaded := false }

/-- `has_signature` accessor. -/
def has_signature (p : OnnxProvider) : Bool := p.model_signature.isSome

/-- `is_model_loaded` accessor. -/
def is_model_loaded (p : OnnxProvider) : Bool := p.model_loaded

/-- The ambient native runtime and system, as the fallible steps
`load_model_classified` performs against it, in program order.  `hasNpu` is
`SystemInfo::default().has_npu()`. -/
structure OrtRuntime where
  builderInit : Except String Unit
  builderReinit : Except String Unit
  registerEps : List ExecutionProvider → Except String Unit
  registerCpuOnly : Except String Unit
  setOptLevel : Except String Unit
  setIntraThreads : Except String Unit
  commitFromFile : String → Except String Session
  hasNpu : Bool

/-- The execution-provider dispatch list built in `load_model_classified`:
the preferred accelerator (when it is one of the four dispatchable GPU/NPU
backends) followed by CPU, which is always pushed last. -/
def epsFor (preferred : ExecutionProvider) : List ExecutionProvider :=
  (match preferred with
    | .Cuda => [ExecutionProvider.Cuda]
    | .DirectML => [ExecutionProvider.DirectML]
    | .CoreML => [ExecutionProvider.CoreML]
    | .OpenVINO => [ExecutionProvider.OpenVINO]
    | _ => []) ++ [ExecutionProvider.Cpu]

/-- The EP-registration step with its CPU-only fallback: on
`with_execution_providers(&eps)` failure the error is remembered in
`last_ep_error`, the builder is re-initialised and CPU-only registration is
attempted; a failure of either of those is classified and recorded. -/
def registerStep (rt : OrtRuntime) (preferred : ExecutionProvider)
    (p : OnnxProvider) : Except (LoadError × OnnxProvider) OnnxProvider :=
  match rt.registerEps (epsFor preferred) with
  | .ok _ => .ok p
  | .error e =>
    let p1 := { p with last_ep_error := some e }
    match rt.builderReinit with
    | .error e2 =>
      let le := classifyError ("Session builder re-init: " ++ e2)
      .error (le, { p1 with last_load_error := some le })
    | .ok _ =>
      match rt.registerCpuOnly with
      | .error e3 =>
        let le := classifyError ("CPU EP registration: " ++ e3)
        .error (le, { p1 with last_load_error := some le })
      | .ok _ => .ok p1

/-- The tail of a load after successful EP registration: set the optimization
level, bound the intra-op threads, commit the model file into a session; on
success store the session, flip the loaded flags, clear `last_load_error` and
introspect the signature. -/
def finishLoad (rt : OrtRuntime) (p1 : OnnxProvider) (path : String) :
    Except LoadError Unit × OnnxProvider :=
  match rt.setOptLevel with
  | .error e =>
    let le := classifyError ("Set optimization level: " ++ e)
    (.error le, { p1 with last_load_error := some le })
  | .ok _ =>
    match rt.setIntraThreads with
    | .error e =>
      let le := classifyError ("Set intra threads: " ++ e)
      (.error le, { p1 with last_load_error := some le })
    | .ok _ =>
      match rt.commitFromFile path with
      | .error e =>
        let le := classifyError e
        (.error le, { p1 with last_load_error := some le })
      | .ok sess =>
        (.ok (), { p1 with
          session := some sess,
          model_loaded := true,
          is_loaded := true,
          last_load_error := none,
          model_signature := some (ModelSignature.from_session sess) })

/-- The runtime-facing part of a load, after validation: create the builder,
register the providers for the preferred backend (with the CPU-only
fallback), then finish with optimization level, thread bound and commit. -/
def buildAndCommit (rt : OrtRuntime) (preferred : ExecutionProvider)
    (p : OnnxProvider) : Except LoadError Unit × OnnxProvider :=
  match rt.builderInit with
  | .error e =>
    let le := classifyError ("Session builder init: " ++ e)
    (.error le, { p with last_load_error := some le })
  | .ok _ =>
    match registerStep rt preferred p with
    | .error ep => (.error ep.1, ep.2)
    | .ok p1 => finishLoad rt p1 p.config.model_path

/-- Shallow embedding of `load_model_classified`.  `fs` is the ambient file
system (`Path::exists`).  Validation rejects an empty path, a missing file
and a non-`.onnx` extension, in that order, before any runtime step; then the
preferred backend is chosen (OpenVINO when `prefer_npu` and an NPU is
detected) and the session is built and committed. -/
def load_model_classified (fs : String → Bool) (rt : OrtRuntime)
    (p : OnnxProvider) : Except LoadError Unit × OnnxProvider :=
  if p.config.model_path == "" then
    (.error .EmptyPath, { p with last_load_error := some .EmptyPath })
  else if !(fs p.config.model_path) then
    let e := LoadError.FileMissing p.config.model_path
    (.error e, { p with last_load_error := some e })
  else if !(isOnnxExt p.config.model_path) then
    let e := LoadError.NotOnnxFile p.config.model_path
    (.error e, { p with last_load_error := some e })
  else
    buildAndCommit rt
      (if p.config.prefer_npu && rt.hasNpu then ExecutionProvider.OpenVINO
       else p.config.execution_provider) p

/-! ## Adaptive forward prober (src/ai/providers.rs, `adaptive_probe`) -/

/-- The batch-of-1 ids tensor over the first `min(len, 512)` tokens. -/
def idsTensor (tokens : List Int) : Tensor :=
  [tokens.take (min tokens.length 512)]

/-- The all-ones attention mask of shape 1 × `seqLen`. -/
def maskTensor (seqLen : Nat) : Tensor := [List.replicate seqLen 1]

/-- The discovered `Ids`-tagged input names, in signature order. -/
def idNames (sig : ModelSignature) : List String :=
  (sig.inputs.filter (fun i => i.role == .Ids)).map (fun i => i.name)

/-- The discovered `AttentionMask`-tagged input names, in signature order. -/
def maskNames (sig : ModelSignature) : List String :=
  (sig.inputs.filter (fun i => i.role == .AttentionMask)).map (fun i => i.name)

/-- The feeds `adaptive_probe` tries, in program order: every discovered ids
name with every discovered mask name, then every discovered ids name alone,
then the legacy literal pair, then the legacy literal alone. -/
def probeFeeds (sig : ModelSignature) (tokens : List Int) : List Feed :=
  let idsVal := idsTensor tokens
  let maskVal := maskTensor (min tokens.length 512)
  ((idNames sig).flatMap (fun i => (maskNames sig).map
      (fun m => [(i, idsVal), (m, maskVal)])))
  ++ ((idNames sig).map (fun i => [(i, idsVal)]))
  ++ [[("input_ids", idsVal), ("attention_mask", maskVal)]]
  ++ [[("input_ids", idsVal)]]

/-- `adaptive_probe`: succeed at the first feed the session accepts, fail
with the exhaustion message once every combination was refused. -/
def adaptive_probe (sess : Session) (sig : ModelSignature)
    (tokens : List Int) : Except String Unit :=
  match (probeFeeds sig tokens).find? sess.accepts with
  | some _ => .ok ()
  | none => .error "Adaptive probe failed for all recognized input signatures"

/-- Position of the first accepted feed (instrumentation of the early-return
loops in `adaptive_probe`). -/
def firstAcceptedIdx (pred : α → Bool) : List α → Option Nat
  | [] => none
  | x :: rest =>
    if pred x then some 0 else (firstAcceptedIdx pred rest).map (· + 1)

/-! ## Backend retry loop (src/ui/app.rs, `try_load_onnx_model_safely`) -/

/-- The fixed fallback order tried by the UI-side retry loop. -/
def fallbackOrder : List ExecutionProvider :=
  [.Cuda, .DirectML, .OpenVINO, .CoreML, .Cpu]

/-- The attempt list of `try_load_onnx_model_safely`: the requested
configuration first, then (when EP fallback is enabled) each backend of the
fixed order — skipping the requested backend and QNN — as an alternative
configuration. -/
def attempt_providers (cfg : InferenceConfig) (enableEpFallback : Bool) :
    List InferenceConfig :=
  cfg :: (if enableEpFallback then
      (fallbackOrder.filter
          (fun ep => ep != cfg.execution_provider && ep != .QNN)).map
        (fun ep => { cfg with execution_provider := ep })
    else [])

/-- Outcome of one guarded attempt (`catch_unwind` around provider creation
plus `load_model`). -/
inductive AttemptOutcome where
  | ok (p : OnnxProvider)
  | err (msg : String)
  | panicked (msg : String)

/-- The retry loop of `try_load_onnx_model_safely`, instrumented with the
number of attempts performed: one per configuration, stopping at the first
success; a panic is contained and recorded as the last error. -/
def try_load_onnx_model_safely (attempt : InferenceConfig → AttemptOutcome) :
    List InferenceConfig → Option String → Except String OnnxProvider × Nat
  | [], lastErr => (.error (lastErr.getD "Unknown ONNX load failure"), 0)
  | cfg :: rest, lastErr =>
    match attempt cfg with
    | .ok p => (.ok p, 1)
    | .err m =>
      let r := try_load_onnx_model_safely attempt rest (some m)
      (r.1, r.2 + 1)
    | .panicked m =>
      let r := try_load_onnx_model_safely attempt rest
        (some ("ONNX Runtime version incompatibility (panic): " ++ m))
      (r.1, r.2 + 1)

/-! ## Concrete fixtures used by witnesses and counterexamples -/

/-- Scenario A of the spec: tokens `[10, 11, 12]`. -/
def scenarioTokens : List Int := [10, 11, 12]

/-- The ids-plus-mask feed for Scenario A's session. -/
def scenarioPairFeed : Feed :=
  [("input_ids", idsTensor scenarioTokens),
   ("attention_mask", maskTensor (min scenarioTokens.length 512))]

/-- Scenario A's session: declares exactly `input_ids` and `attention_mask`
and accepts exactly the ids-plus-mask feed. -/
def scenarioSession : Session :=
  ⟨["input_ids", "attention_mask"], fun f => f == scenarioPairFeed⟩

/-- Scenario A's introspected signature. -/
def scenarioSig : ModelSignature := ModelSignature.from_session scenarioSession

/-- A session with one declared input, refusing all feeds. -/
def demoSession : Session := ⟨["input_ids"], fun _ => false⟩

/-- A configuration pointing at an existing `.onnx` file. -/
def demoConfig : InferenceConfig := ⟨"models/demo.onnx", .Cpu, false⟩

/-- A freshly constructed provider for `demoConfig`. -/
def demoProvider : OnnxProvider := OnnxProvider.new demoConfig

/-- A runtime in which every native step succeeds and the commit yields
`demoSession`. -/
def rtAllOk : OrtRuntime :=
  ⟨.ok (), .ok (), fun _ => .ok (), .ok (), .ok (), .ok (),
   fun _ => .ok demoSession, false⟩

end Ria

namespace Ria

/-- Claim C1: with an expected SHA-256 supplied, a case-insensitive digest
mismatch on the complete part file makes the call return a checksum error,
leaves the final destination untouched (so no file appears there), and leaves
the `.part` file on disk; the part file is renamed onto the destination only
when verification passes, and then the part file is gone. -/
theorem checksum_mismatch_blocks_finalize (sha256hex : Bytes → String)
    (e : String) (server : Option Nat → HttpResponse) (st : DownloadState)
    (bytes : Bytes)
    (hb : bytes = st.partFile.getD [] ++ (server (rangeHeader (resumeOffset st))).body)
    (hok : (isSuccessStatus (server (rangeHeader (resumeOffset st))).status
            || (server (rangeHeader (resumeOffset st))).status == 206) = true) :
    (strToLower (sha256hex bytes) ≠ strToLower e →
      (download_model_with_verify sha256hex (some e) server st).1
          = .checksumMismatch (sha256hex bytes)
      ∧ (download_model_with_verify sha256hex (some e) server st).2.finalFile
          = st.finalFile
      ∧ (download_model_with_verify sha256hex (some e) server st).2.partFile
          = some bytes)
    ∧ (strToLower (sha256hex bytes) = strToLower e →
      (download_model_with_verify sha256hex (some e) server st).1 = .ok bytes
      ∧ (download_model_with_verify sha256hex (some e) server st).2.partFile = none
      ∧ (download_model_with_verify sha256hex (some e) server st).2.finalFile
          = some bytes) := by
  subst hb
  unfold download_model_with_verify
  simp only [hok, Bool.not_true, Bool.false_eq_true, if_false]
  constructor
  · intro hne
    simp [hne]
  · intro heq
    simp [heq]

/-- Witness for C1 at a concrete input: constant digest "aa", expected "BB",
a 200 response with body `[1,2,3]`, and a one-byte part file already present. -/
theorem checksum_mismatch_blocks_finalize_witness :
    (download_model_with_verify (fun _ => "aa") (some "BB")
        (fun _ => ⟨200, [1, 2, 3]⟩) ⟨some [9], none⟩).1
      = .checksumMismatch "aa"
    ∧ (download_model_with_verify (fun _ => "aa") (some "BB")
        (fun _ => ⟨200, [1, 2, 3]⟩) ⟨some [9], none⟩).2.finalFile = none
    ∧ (download_model_with_verify (fun _ => "aa") (some "BB")
        (fun _ => ⟨200, [1, 2, 3]⟩) ⟨some [9], none⟩).2.partFile
        = some [9, 1, 2, 3] := by
  have h := (checksum_mismatch_blocks_finalize (fun _ => "aa") "BB"
      (fun _ => ⟨200, [1, 2, 3]⟩) ⟨some [9], none⟩ [9, 1, 2, 3]
      (by decide) (by decide)).1 (by decide)
  exact ⟨h.1, h.2.1, h.2.2⟩

/-- Claim C2 evaluated on the code: a non-empty part file (`[7]`, resume
offset 1, so a Range header is sent) answered by a plain 200 full-body
response `[1,2,3]` is appended to, not restarted: the finished file is the
concatenation `[7,1,2,3]`, which differs from the server's full body. -/
theorem resume_200_appends_without_reset :
    resumeOffset ⟨some [7], none⟩ = 1
    ∧ rangeHeader (resumeOffset ⟨some [7], none⟩) = some 1
    ∧ (download_model_with_verify (fun _ => "") none
        (fun _ => ⟨200, [1, 2, 3]⟩) ⟨some [7], none⟩).2.finalFile
        = some [7, 1, 2, 3]
    ∧ ([7, 1, 2, 3] : Bytes) ≠ [1, 2, 3] := by
  refine ⟨rfl, rfl, rfl, by decide⟩

/-- Claim C9: a zero-length part file behaves exactly like an absent part
file: the request carries no Range header, the call's result and the final
path agree with the fresh-download run, and when the status is acceptable the
entire post-state coincides as well. -/
theorem zero_length_part_fresh_download (sha256hex : Bytes → String)
    (expected : Option String) (server : Option Nat → HttpResponse)
    (f : Option Bytes) :
    rangeHeader (resumeOffset ⟨some [], f⟩) = none
    ∧ (download_model_with_verify sha256hex expected server ⟨some [], f⟩).1
        = (download_model_with_verify sha256hex expected server ⟨none, f⟩).1
    ∧ (download_model_with_verify sha256hex expected server ⟨some [], f⟩).2.finalFile
        = (download_model_with_verify sha256hex expected server ⟨none, f⟩).2.finalFile
    ∧ ((isSuccessStatus (server none).status || (server none).status == 206) = true →
        (download_model_with_verify sha256hex expected server ⟨some [], f⟩).2
          = (download_model_with_verify sha256hex expected server ⟨none, f⟩).2) := by
  refine ⟨rfl, ?_, ?_, ?_⟩ <;>
    · unfold download_model_with_verify
      simp only [resumeOffset, rangeHeader, Option.getD_some, Option.getD_none,
        List.length_nil, gt_iff_lt, lt_irrefl, if_false, List.nil_append]
      cases hst : (isSuccessStatus (server none).status || (server none).status == 206) <;>
        cases expected <;> simp [hst]

/-- Witness for C9 at a concrete input: a 200 response with body `[4]`
downloaded over an empty part file ends in the same state as over no part
file at all. -/
theorem zero_length_part_fresh_download_witness :
    (isSuccessStatus 200 || (200 : Nat) == 206) = true
    ∧ (download_model_with_verify (fun _ => "d") none
        (fun _ => ⟨200, [4]⟩) ⟨some [], none⟩).2
      = (download_model_with_verify (fun _ => "d") none
          (fun _ => ⟨200, [4]⟩) ⟨none, none⟩).2 := by
  exact ⟨by decide,
    (zero_length_part_fresh_download (fun _ => "d") none
        (fun _ => ⟨200, [4]⟩) none).2.2.2 (by decide)⟩

/-- Claim C3: the dispatch list built per load attempt is non-empty, contains
CPU, and its final element is always CPU; the UI-side attempt list is
non-empty as well; and the retry loop performs exactly one attempt per list
element before moving on, so the number of attempts is bounded by the list
length and a load always terminates. -/
theorem backend_negotiation_terminates :
    (∀ ep, epsFor ep ≠ [] ∧ (epsFor ep).getLast? = some .Cpu
        ∧ ExecutionProvider.Cpu ∈ epsFor ep)
    ∧ (∀ cfg b, attempt_providers cfg b ≠ [])
    ∧ (∀ attempt cfgs lastErr,
        (try_load_onnx_model_safely attempt cfgs lastErr).2 ≤ cfgs.length) := by
  refine ⟨?_, ?_, ?_⟩
  · intro ep
    cases ep <;> simp [epsFor]
  · intro cfg b
    simp [attempt_providers]
  · intro attempt cfgs
    induction cfgs with
    | nil =>
      intro lastErr
      simp [try_load_onnx_model_safely]
    | cons c rest ih =>
      intro lastErr
      unfold try_load_onnx_model_safely
      cases h : attempt c with
      | ok p =>
        simp
      | err m =>
        simpa using Nat.add_le_add_right (ih (some m)) 1
      | panicked m =>
        simpa using Nat.add_le_add_right
          (ih (some ("ONNX Runtime version incompatibility (panic): " ++ m))) 1

/-- Claim C4: `load_model_classified` rejects the empty path, then a missing
file, then a non-`.onnx` extension, in that priority order; each of these
validation failures is decided identically under any runtime (no session is
constructed), and it leaves `session` and `model_loaded` exactly as they
were — `None` and `false` for an unloaded provider. -/
theorem load_validation_order_and_frame (fs : String → Bool)
    (rt rt' : OrtRuntime) (p : OnnxProvider)
    (hsess : p.session = none) (hml : p.model_loaded = false) :
    (p.config.model_path = "" →
      (load_model_classified fs rt p).1 = .error .EmptyPath
      ∧ (load_model_classified fs rt p).2.session = none
      ∧ (load_model_classified fs rt p).2.model_loaded = false
      ∧ load_model_classified fs rt p = load_model_classified fs rt' p)
    ∧ (p.config.model_path ≠ "" → fs p.config.model_path = false →
      (load_model_classified fs rt p).1 = .error (.FileMissing p.config.model_path)
      ∧ (load_model_classified fs rt p).2.session = none
      ∧ (load_model_classified fs rt p).2.model_loaded = false
      ∧ load_model_classified fs rt p = load_model_classified fs rt' p)
    ∧ (p.config.model_path ≠ "" → fs p.config.model_path = true →
       isOnnxExt p.config.model_path = false →
      (load_model_classified fs rt p).1 = .error (.NotOnnxFile p.config.model_path)
      ∧ (load_model_classified fs rt p).2.session = none
      ∧ (load_model_classified fs rt p).2.model_loaded = false
      ∧ load_model_classified fs rt p = load_model_classified fs rt' p) := by
  refine ⟨?_, ?_, ?_⟩
  · intro h0
    simp [load_model_classified, h0, hsess, hml]
  · intro h0 h1
    simp [load_model_classified, h0, h1, hsess, hml]
  · intro h0 h1 h2
    simp [load_model_classified, h0, h1, h2, hsess, hml]

/-- Witness for C4 at a concrete input: a fresh provider with an empty model
path is rejected with `EmptyPath` and stays session-free. -/
theorem load_validation_order_and_frame_witness :
    (load_model_classified (fun _ => false) rtAllOk
        (OnnxProvider.new ⟨"", .Cpu, false⟩)).1 = .error .EmptyPath
    ∧ (load_model_classified (fun _ => false) rtAllOk
        (OnnxProvider.new ⟨"", .Cpu, false⟩)).2.session = none := by
  have h := (load_validation_order_and_frame (fun _ => false) rtAllOk rtAllOk
      (OnnxProvider.new ⟨"", .Cpu, false⟩) rfl rfl).1 rfl
  exact ⟨h.1, h.2.1⟩

/-- Claim C6: `ModelSignature::from_session` yields exactly one descriptor
per declared input, in declaration order and with the declared names, the
role of each being chosen by the case-insensitive name rules (contains
"input_ids", equals "input", or contains "tokens" → Ids; contains
"attention_mask" or equals "mask" → AttentionMask; contains "token_type" →
TokenTypeIds; contains "position" → PositionIds; otherwise Unknown); in
particular a session declaring an input literally named "input_ids" is
introspected with an Ids-tagged descriptor. -/
theorem signature_roles_per_input (s : Session) :
    ((ModelSignature.from_session s).inputs.map (fun d => d.name) = s.inputs)
    ∧ (∀ d ∈ (ModelSignature.from_session s).inputs,
        d.role = (if strContains (strToLower d.name) "input_ids"
                      || strToLower d.name == "input"
                      || strContains (strToLower d.name) "tokens" then .Ids
                  else if strContains (strToLower d.name) "attention_mask"
                      || strToLower d.name == "mask" then .AttentionMask
                  else if strContains (strToLower d.name) "token_type" then .TokenTypeIds
                  else if strContains (strToLower d.name) "position" then .PositionIds
                  else .Unknown))
    ∧ ("input_ids" ∈ s.inputs →
        ∃ d ∈ (ModelSignature.from_session s).inputs,
          d.name = "input_ids" ∧ d.role = .Ids) := by
  refine ⟨?_, ?_, ?_⟩
  · simp only [ModelSignature.from_session, List.map_map]
    exact List.map_id s.inputs
  · intro d hd
    simp only [ModelSignature.from_session, List.mem_map] at hd
    obtain ⟨n, _, rfl⟩ := hd
    rfl
  · intro hm
    refine ⟨⟨"input_ids", inputRole "input_ids"⟩, ?_, rfl, ?_⟩
    · simp only [ModelSignature.from_session, List.mem_map]
      exact ⟨"input_ids", hm, rfl⟩
    · rfl

/-- Witness for C6 at a concrete input: a session declaring exactly
`input_ids` gets an Ids-tagged descriptor. -/
theorem signature_roles_per_input_witness :
    "input_ids" ∈ (⟨["input_ids"], fun _ => false⟩ : Session).inputs
    ∧ ∃ d ∈ (ModelSignature.from_session ⟨["input_ids"], fun _ => false⟩).inputs,
        d.name = "input_ids" ∧ d.role = .Ids := by
  have hm : "input_ids" ∈ (⟨["input_ids"], fun _ => false⟩ : Session).inputs := by
    simp
  exact ⟨hm, (signature_roles_per_input ⟨["input_ids"], fun _ => false⟩).2.2 hm⟩

/-- The EP-registration step records the classified error exactly when it
fails, and otherwise leaves every load-relevant field untouched (only
`last_ep_error` may change). -/
theorem registerStep_frame (rt : OrtRuntime) (preferred : ExecutionProvider)
    (p : OnnxProvider) :
    (∀ le p', registerStep rt preferred p = .error (le, p') →
      p'.last_load_error = some le ∧ p'.session = p.session
      ∧ p'.model_loaded = p.model_loaded ∧ p'.is_loaded = p.is_loaded
      ∧ p'.model_signature = p.model_signature)
    ∧ (∀ p1, registerStep rt preferred p = .ok p1 →
      p1.last_load_error = p.last_load_error ∧ p1.session = p.session
      ∧ p1.model_loaded = p.model_loaded ∧ p1.is_loaded = p.is_loaded
      ∧ p1.model_signature = p.model_signature ∧ p1.config = p.config) := by
  constructor
  · intro le p' h
    unfold registerStep at h
    repeat' split at h
    all_goals cases h
    all_goals simp
  · intro p1 h
    unfold registerStep at h
    repeat' split at h
    all_goals cases h
    all_goals simp

/-- The post-registration tail of a load: the result is `Ok` exactly when
`last_load_error` ends up `None`, a returned error is the recorded one, and
success stores a session, a signature and both loaded flags. -/
theorem finishLoad_spec (rt : OrtRuntime) (p1 : OnnxProvider) (path : String) :
    ((finishLoad rt p1 path).1 = .ok () ↔
      (finishLoad rt p1 path).2.last_load_error = none)
    ∧ (∀ e, (finishLoad rt p1 path).1 = .error e →
      (finishLoad rt p1 path).2.last_load_error = some e)
    ∧ ((finishLoad rt p1 path).1 = .ok () →
      (finishLoad rt p1 path).2.model_signature.isSome = true
      ∧ (finishLoad rt p1 path).2.model_loaded = true
      ∧ (finishLoad rt p1 path).2.is_loaded = true
      ∧ (finishLoad rt p1 path).2.session.isSome = true) := by
  unfold finishLoad
  repeat' split
  all_goals simp_all

/-- The whole runtime-facing part of a load tracks `last_load_error` the same
way `finishLoad` does, and success always leaves a signature. -/
theorem buildAndCommit_spec (rt : OrtRuntime) (preferred : ExecutionProvider)
    (p : OnnxProvider) :
    ((buildAndCommit rt preferred p).1 = .ok () ↔
      (buildAndCommit rt preferred p).2.last_load_error = none)
    ∧ (∀ e, (buildAndCommit rt preferred p).1 = .error e →
      (buildAndCommit rt preferred p).2.last_load_error = some e)
    ∧ ((buildAndCommit rt preferred p).1 = .ok () →
      (buildAndCommit rt preferred p).2.model_signature.isSome = true) := by
  unfold buildAndCommit
  cases hbi : rt.builderInit with
  | error e => simp
  | ok u =>
    cases hreg : registerStep rt preferred p with
    | error ep =>
      obtain ⟨le, p'⟩ := ep
      obtain ⟨hle, -, -, -, -⟩ := (registerStep_frame rt preferred p).1 le p' hreg
      simp [hle]
    | ok p1 =>
      exact ⟨(finishLoad_spec rt p1 p.config.model_path).1,
             (finishLoad_spec rt p1 p.config.model_path).2.1,
             fun h => ((finishLoad_spec rt p1 p.config.model_path).2.2 h).1⟩

/-- Claim C10: after every call of `load_model_classified`, the stored
`last_load_error` is `None` exactly when the call returned `Ok`, and on
failure it holds precisely the returned `LoadError` — a stale error never
survives a later successful load. -/
theorem last_load_error_tracks_result (fs : String → Bool) (rt : OrtRuntime)
    (p : OnnxProvider) :
    ((load_model_classified fs rt p).1 = .ok () ↔
      (load_model_classified fs rt p).2.last_load_error = none)
    ∧ ∀ e, (load_model_classified fs rt p).1 = .error e →
      (load_model_classified fs rt p).2.last_load_error = some e := by
  unfold load_model_classified
  split
  · simp
  · split
    · simp
    · split
      · simp
      · exact ⟨(buildAndCommit_spec rt _ p).1, (buildAndCommit_spec rt _ p).2.1⟩

/-- Witness for C10 at concrete inputs: a successful load stores no error; a
load rejected for an empty path stores exactly `EmptyPath`. -/
theorem last_load_error_tracks_result_witness :
    (load_model_classified (fun _ => true) rtAllOk demoProvider).2.last_load_error = none
    ∧ (load_model_classified (fun _ => true) rtAllOk
        (OnnxProvider.new ⟨"", .Cpu, false⟩)).2.last_load_error = some .EmptyPath := by
  exact ⟨(last_load_error_tracks_result (fun _ => true) rtAllOk demoProvider).1.mp rfl,
         (last_load_error_tracks_result (fun _ => true) rtAllOk
            (OnnxProvider.new ⟨"", .Cpu, false⟩)).2 .EmptyPath rfl⟩

/-- A successful load always leaves an introspected signature in place. -/
theorem load_ok_signature (fs : String → Bool) (rt : OrtRuntime)
    (p : OnnxProvider) :
    (load_model_classified fs rt p).1 = .ok () →
    (load_model_classified fs rt p).2.model_signature.isSome = true := by
  unfold load_model_classified
  split
  · simp
  · split
    · simp
    · split
      · simp
      · exact (buildAndCommit_spec rt _ p).2.2

/-- Claim C7 counterexample: a concrete successful load followed by
`unload()` leaves `has_signature()` returning `true`, not `false` — the
cached signature is not invalidated by the source's `unload`. -/
theorem unload_keeps_signature_cached :
    (load_model_classified (fun _ => true) rtAllOk demoProvider).1 = .ok ()
    ∧ has_signature
        (unload (load_model_classified (fun _ => true) rtAllOk demoProvider).2) = true
    ∧ ¬ has_signature
        (unload (load_model_classified (fun _ => true) rtAllOk demoProvider).2) = false := by
  have h2 : has_signature
      (unload (load_model_classified (fun _ => true) rtAllOk demoProvider).2) = true := rfl
  refine ⟨rfl, h2, ?_⟩
  simp [h2]

/-- Claim C7 as amended: after a successful load followed by `unload()`, the
provider holds no session and both loaded flags are `false`, but the cached
`ModelSignature` is retained, so `has_signature()` still returns `true`. -/
theorem unload_clears_session_not_signature (fs : String → Bool)
    (rt : OrtRuntime) (p : OnnxProvider)
    (h : (load_model_classified fs rt p).1 = .ok ()) :
    (unload (load_model_classified fs rt p).2).session = none
    ∧ (unload (load_model_classified fs rt p).2).model_loaded = false
    ∧ (unload (load_model_classified fs rt p).2).is_loaded = false
    ∧ has_signature (unload (load_model_classified fs rt p).2) = true := by
  refine ⟨rfl, rfl, rfl, ?_⟩
  have hs := load_ok_signature fs rt p h
  simpa [unload, has_signature] using hs

/-- Witness for the amended C7 at a concrete input. -/
theorem unload_clears_session_not_signature_witness :
    (load_model_classified (fun _ => true) rtAllOk demoProvider).1 = .ok ()
    ∧ has_signature
        (unload (load_model_classified (fun _ => true) rtAllOk demoProvider).2) = true := by
  exact ⟨rfl,
    (unload_clears_session_not_signature (fun _ => true) rtAllOk demoProvider rfl).2.2.2⟩

/-- The position returned by `firstAcceptedIdx` holds an accepted element and
everything before it is refused. -/
theorem firstAcceptedIdx_spec {α : Type} (pred : α → Bool) :
    ∀ (l : List α) (i : Nat), firstAcceptedIdx pred l = some i →
      ∃ x, l[i]? = some x ∧ pred x = true
        ∧ ∀ j, j < i → ∀ y, l[j]? = some y → pred y = false := by
  intro l
  induction l with
  | nil =>
    intro i h
    simp [firstAcceptedIdx] at h
  | cons a rest ih =>
    intro i h
    unfold firstAcceptedIdx at h
    by_cases hp : pred a = true
    · rw [if_pos hp] at h
      cases h
      exact ⟨a, by simp, hp, fun j hj => absurd hj (Nat.not_lt_zero j)⟩
    · rw [if_neg hp] at h
      obtain ⟨k, hk, hki⟩ := Option.map_eq_some'.mp h
      subst hki
      obtain ⟨x, hx, hpx, hbefore⟩ := ih k hk
      refine ⟨x, by simpa using hx, hpx, ?_⟩
      intro j hj y hy
      cases j with
      | zero =>
        simp at hy
        subst hy
        exact Bool.eq_false_iff.mpr hp
      | succ j' =>
        exact hbefore j' (by omega) y (by simpa using hy)

/-- Claim C5: the adaptive probe uses only the first `min(length, 512)`
tokens, builds a 1×seq_len ids tensor and an all-ones attention mask of
identical shape, tries the four stages in exactly the documented order
(discovered ids×mask pairs, discovered ids alone, the legacy literal pair,
the legacy literal alone), succeeds at the first feed the session accepts,
and errors exactly when every combination was refused. -/
theorem adaptive_probe_order_and_shape (sess : Session) (sig : ModelSignature)
    (tokens : List Int) (hne : tokens ≠ []) :
    (idsTensor tokens).length = 1
    ∧ (∀ row ∈ idsTensor tokens, row = tokens.take (min tokens.length 512))
    ∧ (maskTensor (min tokens.length 512)).length = 1
    ∧ (∀ row ∈ maskTensor (min tokens.length 512),
        row.length = (tokens.take (min tokens.length 512)).length
        ∧ ∀ x ∈ row, x = 1)
    ∧ probeFeeds sig tokens
      = ((idNames sig).flatMap (fun i => (maskNames sig).map
            (fun m => [(i, idsTensor tokens),
                       (m, maskTensor (min tokens.length 512))])))
        ++ ((idNames sig).map (fun i => [(i, idsTensor tokens)]))
        ++ [[("input_ids", idsTensor tokens),
             ("attention_mask", maskTensor (min tokens.length 512))]]
        ++ [[("input_ids", idsTensor tokens)]]
    ∧ (adaptive_probe sess sig tokens = .ok () ↔
        ∃ f ∈ probeFeeds sig tokens, sess.accepts f = true)
    ∧ (∀ i, firstAcceptedIdx sess.accepts (probeFeeds sig tokens) = some i →
        adaptive_probe sess sig tokens = .ok ()
        ∧ ∃ f, (probeFeeds sig tokens)[i]? = some f ∧ sess.accepts f = true
            ∧ ∀ j, j < i → ∀ g, (probeFeeds sig tokens)[j]? = some g →
                sess.accepts g = false)
    ∧ ((∀ f ∈ probeFeeds sig tokens, sess.accepts f = false) ↔
        adaptive_probe sess sig tokens
          = .error "Adaptive probe failed for all recognized input signatures") := by
  refine ⟨rfl, ?_, rfl, ?_, rfl, ?_, ?_, ?_⟩
  · intro row hrow
    simpa [idsTensor] using hrow
  · intro row hrow
    simp only [maskTensor, List.mem_singleton] at hrow
    subst hrow
    constructor
    · simp [List.length_take, List.length_replicate]
    · intro x hx
      exact List.eq_of_mem_replicate hx
  · constructor
    · intro h
      unfold adaptive_probe at h
      cases hf : (probeFeeds sig tokens).find? sess.accepts with
      | none =>
        rw [hf] at h
        simp at h
      | some f =>
        exact ⟨f, List.mem_of_find?_eq_some hf, List.find?_some hf⟩
    · rintro ⟨f, hmem, hacc⟩
      unfold adaptive_probe
      cases hf : (probeFeeds sig tokens).find? sess.accepts with
      | none => exact absurd hacc (List.find?_eq_none.mp hf f hmem)
      | some g => rfl
  · intro i hi
    obtain ⟨x, hx, hpx, hbefore⟩ := firstAcceptedIdx_spec sess.accepts _ i hi
    have hmem : x ∈ probeFeeds sig tokens := List.mem_iff_getElem?.mpr ⟨i, hx⟩
    refine ⟨?_, x, hx, hpx, hbefore⟩
    unfold adaptive_probe
    cases hf : (probeFeeds sig tokens).find? sess.accepts with
    | none => exact absurd hpx (List.find?_eq_none.mp hf x hmem)
    | some g => rfl
  · constructor
    · intro hall
      unfold adaptive_probe
      cases hf : (probeFeeds sig tokens).find? sess.accepts with
      | none => rfl
      | some g =>
        have h1 := List.find?_some hf
        rw [hall g (List.mem_of_find?_eq_some hf)] at h1
        exact absurd h1 (by simp)
    · intro herr f hmem
      unfold adaptive_probe at herr
      cases hf : (probeFeeds sig tokens).find? sess.accepts with
      | none => exact Bool.eq_false_iff.mpr (List.find?_eq_none.mp hf f hmem)
      | some g =>
        rw [hf] at herr
        simp at herr

/-- Witness for C5 at a concrete input: one token, a session refusing all
feeds. -/
theorem adaptive_probe_order_and_shape_witness :
    ([5] : List Int) ≠ []
    ∧ (idsTensor [5]).length = 1
    ∧ (adaptive_probe demoSession (ModelSignature.from_session demoSession) [5]
          = .ok ()
        ↔ ∃ f ∈ probeFeeds (ModelSignature.from_session demoSession) [5],
            demoSession.accepts f = true) := by
  have h := adaptive_probe_order_and_shape demoSession
      (ModelSignature.from_session demoSession) [5] (by decide)
  exact ⟨by decide, h.1, h.2.2.2.2.2.1⟩

/-- Claim C8 counterexample: with tokens `[10,11,12]` and a session declaring
exactly `input_ids` and `attention_mask` that accepts the ids-plus-mask feed,
the probe does succeed — but the first accepted combination is at position 0,
inside the discovered-names stage (of length 1·1 = 1), while the legacy
literal pair sits at position 2, so the success is not reached via the legacy
path. -/
theorem scenarioA_first_hit_is_discovered_stage :
    adaptive_probe scenarioSession scenarioSig scenarioTokens = .ok ()
    ∧ firstAcceptedIdx scenarioSession.accepts
        (probeFeeds scenarioSig scenarioTokens) = some 0
    ∧ (idNames scenarioSig).length * (maskNames scenarioSig).length = 1
    ∧ (probeFeeds scenarioSig scenarioTokens)[2]? = some scenarioPairFeed
    ∧ firstAcceptedIdx scenarioSession.accepts
        (probeFeeds scenarioSig scenarioTokens) ≠ some 2 := by
  refine ⟨rfl, by decide, by decide, by decide, by decide⟩

/-- Claim C8 as amended: for tokens `[10,11,12]` and a session declaring
exactly `input_ids` and `attention_mask` whose runtime accepts the
ids-plus-mask feed, the probe succeeds, and the accepted combination is the
stage-1 pairing of the discovered Ids and AttentionMask names (position 0),
not the legacy literal-pair stage. -/
theorem scenarioA_succeeds_via_discovered_pair (acc : Feed → Bool)
    (h : acc scenarioPairFeed = true) :
    adaptive_probe ⟨["input_ids", "attention_mask"], acc⟩ scenarioSig
        scenarioTokens = .ok ()
    ∧ firstAcceptedIdx acc (probeFeeds scenarioSig scenarioTokens) = some 0 := by
  have hfeeds : probeFeeds scenarioSig scenarioTokens
      = [scenarioPairFeed, [("input_ids", idsTensor scenarioTokens)],
         scenarioPairFeed, [("input_ids", idsTensor scenarioTokens)]] := by decide
  constructor
  · unfold adaptive_probe
    rw [hfeeds]
    simp [List.find?, h]
  · rw [hfeeds]
    simp [firstAcceptedIdx, h]

/-- Witness for the amended C8 with the concrete accepting session. -/
theorem scenarioA_succeeds_via_discovered_pair_witness :
    scenarioSession.accepts scenarioPairFeed = true
    ∧ adaptive_probe ⟨["input_ids", "attention_mask"], scenarioSession.accepts⟩
        scenarioSig scenarioTokens = .ok () := by
  have h : scenarioSession.accepts scenarioPairFeed = true := by decide
  exact ⟨h, (scenarioA_succeeds_via_discovered_pair scenarioSession.accepts h).1⟩

end Ria
